import Mathlib

/-!
Shallow embedding of the parked-domain operator (Go, package `controller`).

The remote AWS clients (Route 53, S3) and the Kubernetes client are modelled
as environments of response functions: every remote call the Go code makes is
recorded in an explicit trace (`Call`), and the response the environment gives
for that call drives the control flow exactly as in the source.  Errors are
modelled by `RErr` (the AWS / k8s error kinds the code distinguishes with
`errors.As` / `apierrors.IsNotFound`) and `GoErr` (the wrapped errors the
helpers construct with `fmt.Errorf`).
-/

/-- Error kinds of the remote systems that the Go code distinguishes
(`errors.As` against a concrete AWS SDK type, `apierrors.IsNotFound`).
All other errors are `other`. -/
inductive RErr where
  | noSuchHostedZone
  | hostedZoneAlreadyExists
  | s3NotFound
  | noSuchBucket
  | notFound
  | other (msg : String)
deriving DecidableEq

/-- Error values produced by the controller helpers: either a raw remote
error returned unchanged, a `fmt.Errorf("...: %w", err)` wrap of a remote
error, or a fresh message error (`errors.New` / `fmt.Errorf` without `%w`). -/
inductive GoErr where
  | aws (e : RErr)
  | wrap (msg : String) (e : RErr)
  | msg (s : String)
deriving DecidableEq

/-- A Route 53 hosted zone as returned by the list call: its id (with the
provider path, e.g. "/hostedzone/Z123") and its name (ending in "."). -/
structure HostedZone where
  id : String
  name : String
deriving DecidableEq

/-- The alias target of a Route 53 record set. -/
structure AliasTarget where
  hostedZoneId : String
  dnsName : String
  evaluateTargetHealth : Bool
deriving DecidableEq

/-- A Route 53 resource record set (only the fields the code touches). -/
structure ResourceRecordSet where
  name : String
  type : String
  aliasTarget : Option AliasTarget
deriving DecidableEq

/-- A Route 53 change action. -/
inductive ChangeAction where
  | upsert
  | delete
deriving DecidableEq

/-- A single change in a Route 53 change batch. -/
structure Change where
  action : ChangeAction
  resourceRecordSet : ResourceRecordSet
deriving DecidableEq

/-- A Route 53 change batch. -/
structure ChangeBatch where
  comment : Option String
  changes : List Change
deriving DecidableEq

/-- One remote call issued by the controller.  Every helper returns the list
of calls it issued, in order, alongside its result. -/
inductive Call where
  | listHostedZonesByName (dnsName : String)
  | getHostedZone (id : String)
  | createHostedZone (name : String) (callerReference : String)
  | changeRecordSets (zoneID : String) (batch : ChangeBatch)
  | listRecordSets (zoneID : String)
  | deleteHostedZone (id : String)
  | headBucket (bucket : String)
  | createBucket (bucket : String) (locationConstraint : Option String)
  | putObject (bucket : String) (key : String) (body : String) (contentType : String)
  | putBucketWebsite (bucket : String) (indexSuffix : String)
  | putBucketPolicy (bucket : String) (policy : String)
  | listObjectsPage (bucket : String)
  | deleteObjects (bucket : String) (keys : List String)
  | deleteBucket (bucket : String)
  | getConfigMap (name : String) (nsName : String)
  | update
  | statusUpdate
deriving DecidableEq

/-- Whether a call mutates remote or cluster state (creation, upload,
deletion, record change, object update); list/get/head calls are read-only. -/
def Call.isMutating : Call → Bool
  | .listHostedZonesByName _ => false
  | .getHostedZone _ => false
  | .listRecordSets _ => false
  | .headBucket _ => false
  | .listObjectsPage _ => false
  | .getConfigMap _ _ => false
  | _ => true

/-- Spec of a ParkedDomain (api/v1alpha1): domain name, optional region,
optional template key. -/
structure ParkedDomainSpec where
  domainName : String
  region : String
  templateName : String
deriving DecidableEq

/-- Status of a ParkedDomain: state string, hosted zone id, nameservers. -/
structure ParkedDomainStatus where
  status : String
  zoneID : String
  nameServers : List String
deriving DecidableEq

/-- A ParkedDomain object: object metadata (name, namespace, deletion
timestamp, finalizers) plus spec and status. -/
structure ParkedDomain where
  name : String
  nsName : String
  deletionTimestamp : Option Nat
  finalizers : List String
  spec : ParkedDomainSpec
  status : ParkedDomainStatus
deriving DecidableEq

/-- The finalizer token of the engine (`finalizerName` in the Go source). -/
def finalizerName : String := "parking.minibaev.eu/finalizer"

/-- Responses of the Route 53 client.  `listRecordSetsPages` models the
`ListResourceRecordSetsPaginator`: the sequence of `NextPage` results. -/
structure R53Env where
  listHostedZonesByName : String → Except RErr (List HostedZone)
  getHostedZone : String → Except RErr (List String)
  createHostedZone : String → String → Except RErr (String × List String)
  changeRecordSets : String → ChangeBatch → Except RErr Unit
  listRecordSetsPages : String → List (Except RErr (List ResourceRecordSet))
  deleteHostedZone : String → Except RErr Unit

/-- Responses of the S3 client and its region-scoped factory.
`listObjectsPages` models the `ListObjectsV2Paginator`: the sequence of
`NextPage` results, each a page of object keys. -/
structure S3Env where
  getClient : String → Except RErr Unit
  headBucket : String → Except RErr Unit
  createBucket : String → Option String → Except RErr Unit
  putObject : String → String → String → String → Except RErr Unit
  putBucketWebsite : String → String → Except RErr Unit
  putBucketPolicy : String → String → Except RErr Unit
  listObjectsPages : String → List (Except RErr (List String))
  deleteObjects : String → List String → Except RErr Unit
  deleteBucket : String → Except RErr Unit

/-- Responses of the Kubernetes client used inside one reconcile invocation:
the ConfigMap read, the object update (`r.Update`) and the status update
(`r.Status().Update`). -/
structure KubeEnv where
  getConfigMap : String → String → Except RErr (List (String × String))
  update : Except RErr Unit
  statusUpdate : Except RErr Unit

/-- Process environment variables read by the bucket driver. -/
structure OsEnv where
  templateConfigMapName : String
  templateConfigMapNamespace : String

/-- All collaborators of one reconcile invocation. -/
structure ClusterEnv where
  r53 : R53Env
  s3 : S3Env
  kube : KubeEnv
  osEnv : OsEnv

/-- Does the first list start with the second one? -/
def listStartsWith : List Char → List Char → Bool
  | _, [] => true
  | [], _ :: _ => false
  | a :: as, b :: bs => a == b && listStartsWith as bs

/-- Fuelled scan implementing Go `strings.ReplaceAll` on char lists: at each
position, if the (non-empty) pattern matches it is consumed and replaced,
otherwise one char is kept.  Any fuel of at least the list length gives the
full scan, since every step consumes at least one character. -/
def replaceAllFuel (pat repl : List Char) : Nat → List Char → List Char
  | _, [] => []
  | 0, l => l
  | fuel + 1, c :: rest =>
    if pat ≠ [] ∧ listStartsWith (c :: rest) pat = true then
      repl ++ replaceAllFuel pat repl fuel (rest.drop (pat.length - 1))
    else
      c :: replaceAllFuel pat repl fuel rest

/-- Go `strings.ReplaceAll s pat repl` (total; pat = "" is never used). -/
def goReplaceAll (s pat repl : String) : String :=
  String.mk (replaceAllFuel pat.data repl.data s.data.length s.data)

/-- Replace the first occurrence of the (non-empty) pattern, as in Go
`strings.Replace(s, pat, repl, 1)`. -/
def replaceFirstAux (pat repl : List Char) : List Char → List Char
  | [] => []
  | c :: rest =>
    if pat ≠ [] ∧ listStartsWith (c :: rest) pat = true then
      repl ++ rest.drop (pat.length - 1)
    else
      c :: replaceFirstAux pat repl rest

/-- Go `strings.Replace(s, pat, repl, 1)`. -/
def goReplaceFirst (s pat repl : String) : String :=
  String.mk (replaceFirstAux pat.data repl.data s.data)

/-- The region applied by every driver: the spec region, defaulting to
eu-central-1 when unset. -/
def effectiveRegion (pd : ParkedDomain) : String :=
  if pd.spec.region = "" then "eu-central-1" else pd.spec.region

/-- From aws_route53_helpers.go: the fixed region → S3-website hosted-zone-id
table; a region absent from the table yields "" (the Go map zero value). -/
def getS3WebsiteHostedZoneID (region : String) : String :=
  if region = "us-east-1" then "Z3AQBSTGFYJSTF"
  else if region = "us-west-1" then "Z2F56UZL2M1ACD"
  else if region = "us-west-2" then "Z3BJ6K6RIION7M"
  else if region = "eu-west-1" then "Z1BKCTXD74EZPE"
  else if region = "eu-central-1" then "Z21DNDUVLTQW6Q"
  else ""

/-- From aws_route53_helpers.go, `reconcileRoute53ARecord`: resolve the alias
hosted zone id from the region table (unknown region is an error before any
call), then issue one UPSERT change of the apex A alias record pointing at
the S3 website endpoint. -/
def reconcileRoute53ARecord (env : R53Env) (pd : ParkedDomain)
    (zoneID s3Endpoint : String) : Except GoErr Unit × List Call :=
  let region := effectiveRegion pd
  let s3HostedZoneID := getS3WebsiteHostedZoneID region
  if s3HostedZoneID = "" then
    (.error (.msg ("unsupported S3 website region for alias record: " ++ region)), [])
  else
    let changeBatch : ChangeBatch :=
      { comment := some "Managed by ParkedDomain Operator"
        changes := [{ action := .upsert
                      resourceRecordSet :=
                        { name := pd.spec.domainName
                          type := "A"
                          aliasTarget := some { hostedZoneId := s3HostedZoneID
                                                dnsName := s3Endpoint
                                                evaluateTargetHealth := false } } }] }
    match env.changeRecordSets zoneID changeBatch with
    | .error e =>
      (.error (.wrap "failed to create/update A record" e), [.changeRecordSets zoneID changeBatch])
    | .ok _ => (.ok (), [.changeRecordSets zoneID changeBatch])

/-- Number of paginator pages actually fetched: all pages up to and
including the first failing one. -/
def pagesFetched {α : Type} : List (Except RErr α) → Nat
  | [] => 0
  | .error _ :: _ => 1
  | .ok _ :: rest => 1 + pagesFetched rest

/-- Concatenate paginator pages, stopping at the first page error (the Go
loops return on the first `NextPage` error). -/
def collectPages {α : Type} : List (Except RErr (List α)) → Except RErr (List α)
  | [] => .ok []
  | .error e :: _ => .error e
  | .ok xs :: rest =>
    match collectPages rest with
    | .error e => .error e
    | .ok more => .ok (xs ++ more)

/-- From aws_route53_helpers.go, `cleanupRoute53Zone`: empty zoneID is a
no-op success; otherwise list all record sets (any page error is returned
wrapped), build DELETE changes for every record whose type is neither NS nor
SOA, issue the batch only when non-empty, then delete the zone, where a
NoSuchHostedZone outcome of the zone deletion is success. -/
def cleanupRoute53Zone (env : R53Env) (pd : ParkedDomain) : Except GoErr Unit × List Call :=
  let zoneID := pd.status.zoneID
  if zoneID = "" then (.ok (), [])
  else
    let pages := env.listRecordSetsPages zoneID
    let listCalls := List.replicate (pagesFetched pages) (Call.listRecordSets zoneID)
    match collectPages pages with
    | .error e => (.error (.wrap "failed to list records in Hosted Zone" e), listCalls)
    | .ok recs =>
      let changes := (recs.filter (fun r => r.type != "NS" && r.type != "SOA")).map
        (fun r => { action := ChangeAction.delete, resourceRecordSet := r })
      let afterChanges : Except GoErr Unit × List Call :=
        if changes.isEmpty then (.ok (), listCalls)
        else
          let batch : ChangeBatch := { comment := none, changes := changes }
          match env.changeRecordSets zoneID batch with
          | .error e =>
            (.error (.wrap "failed to delete records from Hosted Zone" e),
             listCalls ++ [.changeRecordSets zoneID batch])
          | .ok _ => (.ok (), listCalls ++ [.changeRecordSets zoneID batch])
      match afterChanges.1 with
      | .error e => (.error e, afterChanges.2)
      | .ok _ =>
        match env.deleteHostedZone zoneID with
        | .error e =>
          match e with
          | .noSuchHostedZone => (.ok (), afterChanges.2 ++ [.deleteHostedZone zoneID])
          | _ =>
            (.error (.wrap "failed to delete Hosted Zone" e),
             afterChanges.2 ++ [.deleteHostedZone zoneID])
        | .ok _ => (.ok (), afterChanges.2 ++ [.deleteHostedZone zoneID])

/-- Shared tail of both zone-reconcile variants: create a new hosted zone
with a caller reference derived from the object name and the current Unix
time, and return its id with the "/hostedzone/" path stripped. -/
def createNewZone (env : R53Env) (pd : ParkedDomain) (domainName : String) (now : Nat)
    (pre : List Call) : Except GoErr (String × List String) × List Call :=
  let callerReference := "parkeddomain-operator-" ++ pd.name ++ "-" ++ toString now
  match env.createHostedZone domainName callerReference with
  | .error e =>
    (.error (.wrap "failed to create Route 53 Hosted Zone" e),
     pre ++ [.createHostedZone domainName callerReference])
  | .ok out =>
    (.ok (goReplaceFirst out.1 "/hostedzone/" "", out.2),
     pre ++ [.createHostedZone domainName callerReference])

/-- From aws_route53_helpers.go, the list-then-adopt `reconcileRoute53Zone`:
list hosted zones by name; if the first result is named exactly
domainName + ".", adopt it (read-only GetHostedZone for the nameservers,
id with the "/hostedzone/" path stripped); otherwise create a new zone. -/
def reconcileRoute53Zone (env : R53Env) (pd : ParkedDomain) (now : Nat) :
    Except GoErr (String × List String) × List Call :=
  let domainName := pd.spec.domainName
  match env.listHostedZonesByName domainName with
  | .error e =>
    (.error (.wrap "failed to list hosted zones" e), [.listHostedZonesByName domainName])
  | .ok zones =>
    match zones with
    | z :: _ =>
      if z.name = domainName ++ "." then
        let zoneID := goReplaceFirst z.id "/hostedzone/" ""
        match env.getHostedZone z.id with
        | .error e =>
          (.error (.wrap "failed to get details for existing hosted zone" e),
           [.listHostedZonesByName domainName, .getHostedZone z.id])
        | .ok nameservers =>
          (.ok (zoneID, nameservers),
           [.listHostedZonesByName domainName, .getHostedZone z.id])
      else createNewZone env pd domainName now [.listHostedZonesByName domainName]
    | [] => createNewZone env pd domainName now [.listHostedZonesByName domainName]

/-- From the second (divergent) `reconcileRoute53Zone` variant in the source:
a non-empty status.zoneID short-circuits; otherwise create the zone, and on a
HostedZoneAlreadyExists conflict return the hard-coded placeholder id
"EXISTING_ZONE_ID_PLACEHOLDER" with an empty nameserver list instead of
looking up the existing zone. -/
def reconcileRoute53ZonePlaceholder (env : R53Env) (pd : ParkedDomain) (now : Nat) :
    Except GoErr (String × List String) × List Call :=
  if pd.status.zoneID ≠ "" then (.ok (pd.status.zoneID, pd.status.nameServers), [])
  else
    let domainName := pd.spec.domainName
    let callerReference := "parkeddomain-operator-" ++ pd.name ++ "-" ++ toString now
    match env.createHostedZone domainName callerReference with
    | .error e =>
      match e with
      | .hostedZoneAlreadyExists =>
        (.ok ("EXISTING_ZONE_ID_PLACEHOLDER", []),
         [.createHostedZone domainName callerReference])
      | _ =>
        (.error (.wrap "failed to create Route 53 Hosted Zone" e),
         [.createHostedZone domainName callerReference])
    | .ok out =>
      (.ok (goReplaceFirst out.1 "/hostedzone/" "", out.2),
       [.createHostedZone domainName callerReference])

/-- From aws_s3_helpers.go: the public-read bucket policy JSON built with
fmt.Sprintf for a bucket name. -/
def policyFor (bucketName : String) : String :=
  "\x7b\"Version\":\"2012-10-17\",\"Statement\":[\x7b\"Sid\":\"PublicReadGetObject\",\"Effect\":\"Allow\",\"Principal\":\"*\",\"Action\":\"s3:GetObject\",\"Resource\":\"arn:aws:s3:::"
    ++ bucketName ++ "/*\"\x7d]\x7d"

/-- The template placeholder token "{{DOMAIN_NAME}}" (braces escaped). -/
def domainNameToken : String := "\x7b\x7bDOMAIN_NAME\x7d\x7d"

/-- From aws_s3_helpers.go, steps 2-5 of `reconcileS3Bucket` (after the
existence check): resolve the template ConfigMap name/namespace/key,
fetch the template, substitute the domain name for the placeholder token,
upload index.html, enable website hosting, apply the public-read policy,
and return the constructed website endpoint. -/
def s3BucketContentSteps (s3env : S3Env) (kube : KubeEnv) (osEnv : OsEnv)
    (pd : ParkedDomain) (bucketName region : String) (pre : List Call) :
    Except GoErr String × List Call :=
  let cmName := osEnv.templateConfigMapName
  if cmName = "" then
    (.error (.msg "TEMPLATE_CONFIGMAP_NAME environment variable must be set"), pre)
  else
    let cmNamespace :=
      if osEnv.templateConfigMapNamespace = "" then pd.nsName
      else osEnv.templateConfigMapNamespace
    let templateName := if pd.spec.templateName = "" then "default.html" else pd.spec.templateName
    match kube.getConfigMap cmName cmNamespace with
    | .error e =>
      (.error (.wrap ("failed to get template ConfigMap '" ++ cmName ++ "' in namespace '"
          ++ cmNamespace ++ "'") e),
       pre ++ [.getConfigMap cmName cmNamespace])
    | .ok data =>
      match data.lookup templateName with
      | none =>
        (.error (.msg ("template key '" ++ templateName ++ "' not found in ConfigMap '"
            ++ cmName ++ "'")),
         pre ++ [.getConfigMap cmName cmNamespace])
      | some templateContent =>
        let finalContent := goReplaceAll templateContent domainNameToken pd.spec.domainName
        match s3env.putObject bucketName "index.html" finalContent "text/html" with
        | .error e =>
          (.error (.wrap "failed to upload final index.html" e),
           pre ++ [.getConfigMap cmName cmNamespace,
                   .putObject bucketName "index.html" finalContent "text/html"])
        | .ok _ =>
          match s3env.putBucketWebsite bucketName "index.html" with
          | .error e =>
            (.error (.wrap "failed to enable S3 static website hosting" e),
             pre ++ [.getConfigMap cmName cmNamespace,
                     .putObject bucketName "index.html" finalContent "text/html",
                     .putBucketWebsite bucketName "index.html"])
          | .ok _ =>
            match s3env.putBucketPolicy bucketName (policyFor bucketName) with
            | .error e =>
              (.error (.wrap "failed to apply S3 bucket policy" e),
               pre ++ [.getConfigMap cmName cmNamespace,
                       .putObject bucketName "index.html" finalContent "text/html",
                       .putBucketWebsite bucketName "index.html",
                       .putBucketPolicy bucketName (policyFor bucketName)])
            | .ok _ =>
              (.ok (bucketName ++ ".s3-website." ++ region ++ ".amazonaws.com"),
               pre ++ [.getConfigMap cmName cmNamespace,
                       .putObject bucketName "index.html" finalContent "text/html",
                       .putBucketWebsite bucketName "index.html",
                       .putBucketPolicy bucketName (policyFor bucketName)])

/-- From aws_s3_helpers.go, `reconcileS3Bucket`: get a region-scoped client
from the factory, check the bucket with HeadBucket, create it only when the
check fails with NotFound (with a location constraint for every region except
us-east-1), then run the content steps. -/
def reconcileS3Bucket (s3env : S3Env) (kube : KubeEnv) (osEnv : OsEnv)
    (pd : ParkedDomain) : Except GoErr String × List Call :=
  let bucketName := pd.spec.domainName
  let region := effectiveRegion pd
  match s3env.getClient region with
  | .error e => (.error (.wrap ("failed to load AWS config for region " ++ region) e), [])
  | .ok _ =>
    match s3env.headBucket bucketName with
    | .error e =>
      match e with
      | .s3NotFound =>
        let lc := if region = "us-east-1" then none else some region
        match s3env.createBucket bucketName lc with
        | .error ce =>
          (.error (.wrap "failed to create S3 bucket" ce),
           [.headBucket bucketName, .createBucket bucketName lc])
        | .ok _ =>
          s3BucketContentSteps s3env kube osEnv pd bucketName region
            [.headBucket bucketName, .createBucket bucketName lc]
      | _ =>
        (.error (.wrap "failed to check S3 bucket existence" e), [.headBucket bucketName])
    | .ok _ =>
      s3BucketContentSteps s3env kube osEnv pd bucketName region [.headBucket bucketName]

/-- From aws_s3_helpers.go, the object-deletion loop of `cleanupS3Bucket`:
for each paginator page, a NoSuchBucket page error ends cleanup successfully
(result false = skip bucket deletion), any other page error is returned
wrapped, and a non-empty page is batch-deleted with DeleteObjects. -/
def s3CleanupLoop (env : S3Env) (bucketName : String) :
    List (Except RErr (List String)) → Except GoErr Bool × List Call
  | [] => (.ok true, [])
  | .error e :: _ =>
    match e with
    | .noSuchBucket => (.ok false, [.listObjectsPage bucketName])
    | _ =>
      (.error (.wrap "failed to list objects in S3 bucket for deletion" e),
       [.listObjectsPage bucketName])
  | .ok keys :: rest =>
    if keys.isEmpty then
      let r := s3CleanupLoop env bucketName rest
      (r.1, .listObjectsPage bucketName :: r.2)
    else
      match env.deleteObjects bucketName keys with
      | .error e =>
        (.error (.wrap "failed to delete objects from S3 bucket" e),
         [.listObjectsPage bucketName, .deleteObjects bucketName keys])
      | .ok _ =>
        let r := s3CleanupLoop env bucketName rest
        (r.1, .listObjectsPage bucketName :: .deleteObjects bucketName keys :: r.2)

/-- From aws_s3_helpers.go, `cleanupS3Bucket`: get the region-scoped client,
empty the bucket page by page (NoSuchBucket while listing is success), then
delete the bucket, where a NoSuchBucket outcome is success. -/
def cleanupS3Bucket (env : S3Env) (pd : ParkedDomain) : Except GoErr Unit × List Call :=
  let bucketName := pd.spec.domainName
  let region := effectiveRegion pd
  match env.getClient region with
  | .error e => (.error (.wrap ("failed to load AWS config for region " ++ region) e), [])
  | .ok _ =>
    let loop := s3CleanupLoop env bucketName (env.listObjectsPages bucketName)
    match loop.1 with
    | .error e => (.error e, loop.2)
    | .ok continueToDeleteBucket =>
      if continueToDeleteBucket then
        match env.deleteBucket bucketName with
        | .error e =>
          match e with
          | .noSuchBucket => (.ok (), loop.2 ++ [.deleteBucket bucketName])
          | _ =>
            (.error (.wrap "failed to delete S3 bucket" e), loop.2 ++ [.deleteBucket bucketName])
        | .ok _ => (.ok (), loop.2 ++ [.deleteBucket bucketName])
      else (.ok (), loop.2)

/-- Result of one `Reconcile` invocation: the returned error (if any), the
in-memory ParkedDomain object at return (none when the fetch failed or the
object was gone), and the trace of calls issued. -/
structure RecResult where
  res : Except GoErr Unit
  pd : Option ParkedDomain
  calls : List Call

/-- From parkeddomain_controller.go, step 3 and 4 of `Reconcile` (the
resource stages): zone, then bucket, then record; each failing stage sets
status.Status to an Error value naming the stage and issues a status update
before returning the stage error; full success sets Provisioned with the
zone id and nameservers and returns the status-update outcome. -/
def createPath (env : ClusterEnv) (pd : ParkedDomain) (now : Nat) (pre : List Call) :
    RecResult :=
  let zr := reconcileRoute53Zone env.r53 pd now
  match zr.1 with
  | .error e =>
    { res := .error e
      pd := some { pd with status := { pd.status with status := "Error: Route53 Zone" } }
      calls := pre ++ zr.2 ++ [.statusUpdate] }
  | .ok zout =>
    let sr := reconcileS3Bucket env.s3 env.kube env.osEnv pd
    match sr.1 with
    | .error e =>
      { res := .error e
        pd := some { pd with status := { pd.status with status := "Error: S3 Bucket" } }
        calls := pre ++ zr.2 ++ sr.2 ++ [.statusUpdate] }
    | .ok s3Endpoint =>
      let rr := reconcileRoute53ARecord env.r53 pd zout.1 s3Endpoint
      match rr.1 with
      | .error e =>
        { res := .error e
          pd := some { pd with status := { pd.status with status := "Error: Route53 A Record" } }
          calls := pre ++ zr.2 ++ sr.2 ++ rr.2 ++ [.statusUpdate] }
      | .ok _ =>
        let pdDone := { pd with status :=
          { status := "Provisioned", zoneID := zout.1, nameServers := zout.2 } }
        match env.kube.statusUpdate with
        | .error e =>
          { res := .error (.aws e)
            pd := some pdDone
            calls := pre ++ zr.2 ++ sr.2 ++ rr.2 ++ [.statusUpdate] }
        | .ok _ =>
          { res := .ok ()
            pd := some pdDone
            calls := pre ++ zr.2 ++ sr.2 ++ rr.2 ++ [.statusUpdate] }

/-- From parkeddomain_controller.go, `Reconcile`: fetch (not-found is a
no-op success); on a non-deleting object, add the finalizer when missing and
persist it, then run the resource stages; on a deleting object holding the
finalizer, clean up the bucket, then the zone, then remove the finalizer and
persist; a deleting object without the finalizer is a no-op. -/
def Reconcile (env : ClusterEnv) (fetch : Except RErr ParkedDomain) (now : Nat) : RecResult :=
  match fetch with
  | .error e =>
    match e with
    | .notFound => { res := .ok (), pd := none, calls := [] }
    | _ => { res := .error (.aws e), pd := none, calls := [] }
  | .ok pd0 =>
    match pd0.deletionTimestamp with
    | none =>
      if pd0.finalizers.contains finalizerName then
        createPath env pd0 now []
      else
        let pd1 := { pd0 with finalizers := pd0.finalizers ++ [finalizerName] }
        match env.kube.update with
        | .error e => { res := .error (.aws e), pd := some pd1, calls := [.update] }
        | .ok _ => createPath env pd1 now [.update]
    | some _ =>
      if pd0.finalizers.contains finalizerName then
        let s3r := cleanupS3Bucket env.s3 pd0
        match s3r.1 with
        | .error e => { res := .error e, pd := some pd0, calls := s3r.2 }
        | .ok _ =>
          let znr := cleanupRoute53Zone env.r53 pd0
          match znr.1 with
          | .error e => { res := .error e, pd := some pd0, calls := s3r.2 ++ znr.2 }
          | .ok _ =>
            let pd1 := { pd0 with finalizers := pd0.finalizers.filter (fun f => f != finalizerName) }
            match env.kube.update with
            | .error e =>
              { res := .error (.aws e), pd := some pd1, calls := s3r.2 ++ znr.2 ++ [.update] }
            | .ok _ =>
              { res := .ok (), pd := some pd1, calls := s3r.2 ++ znr.2 ++ [.update] }
      else { res := .ok (), pd := some pd0, calls := [] }

/-- A ParkedDomain as created externally: no finalizer, not deleting, empty
status, defaulted region and template. -/
def pdBase : ParkedDomain :=
  { name := "pd1"
    nsName := "default"
    deletionTimestamp := none
    finalizers := []
    spec := { domainName := "example.com", region := "", templateName := "" }
    status := { status := "", zoneID := "", nameServers := [] } }

/-- A Route 53 environment where no zone exists yet and creation succeeds. -/
def r53EnvHappy : R53Env :=
  { listHostedZonesByName := fun _ => .ok []
    getHostedZone := fun _ => .ok ["ns-10.awsdns.org"]
    createHostedZone := fun _ _ => .ok ("/hostedzone/Z9NEW", ["ns-1.awsdns.com", "ns-2.awsdns.com"])
    changeRecordSets := fun _ _ => .ok ()
    listRecordSetsPages := fun _ =>
      [.ok [{ name := "example.com.", type := "NS", aliasTarget := none },
            { name := "example.com.", type := "SOA", aliasTarget := none }]]
    deleteHostedZone := fun _ => .ok () }

/-- An S3 environment where the bucket does not exist yet and every mutation
succeeds. -/
def s3EnvHappy : S3Env :=
  { getClient := fun _ => .ok ()
    headBucket := fun _ => .error .s3NotFound
    createBucket := fun _ _ => .ok ()
    putObject := fun _ _ _ _ => .ok ()
    putBucketWebsite := fun _ _ => .ok ()
    putBucketPolicy := fun _ _ => .ok ()
    listObjectsPages := fun _ => [.ok ["index.html"]]
    deleteObjects := fun _ _ => .ok ()
    deleteBucket := fun _ => .ok () }

/-- A Kubernetes environment with a template ConfigMap and succeeding
updates. -/
def kubeEnvHappy : KubeEnv :=
  { getConfigMap := fun _ _ => .ok [("default.html", "<h1>\x7b\x7bDOMAIN_NAME\x7d\x7d</h1>")]
    update := .ok ()
    statusUpdate := .ok () }

/-- Process environment with the template ConfigMap name set. -/
def osEnvHappy : OsEnv :=
  { templateConfigMapName := "templates", templateConfigMapNamespace := "default" }

/-- The all-success collaborator environment. -/
def envHappy : ClusterEnv :=
  { r53 := r53EnvHappy, s3 := s3EnvHappy, kube := kubeEnvHappy, osEnv := osEnvHappy }

/-- A Route 53 environment whose CreateHostedZone fails with the
zone-name-already-exists conflict. -/
def r53EnvConflict : R53Env :=
  { r53EnvHappy with createHostedZone := fun _ _ => .error .hostedZoneAlreadyExists }

/-- C1: the claim says a zone-name-already-exists conflict on creation is
resolved by falling back to the adoption lookup, returning the existing
zone's identifier and nameservers.  The placeholder zone-reconcile variant
instead returns the fabricated identifier "EXISTING_ZONE_ID_PLACEHOLDER"
with an empty nameserver list and performs no lookup at all: its whole trace
is the single failed CreateHostedZone call.  This theorem evaluates that
variant at the failing input, witnessing the divergence between the code and
its own stated intent (the function's comment promises to proceed by finding
the existing zone). -/
theorem c1_conflict_returns_placeholder :
    reconcileRoute53ZonePlaceholder r53EnvConflict pdBase 17 =
      (.ok ("EXISTING_ZONE_ID_PLACEHOLDER", []),
       [.createHostedZone "example.com" "parkeddomain-operator-pd1-17"]) := rfl

/-- C2 counterexample: on a non-deleting intent without the finalizer token
and an all-success environment, the very same Reconcile invocation that adds
and persists the token (the update call) also performs zone work (creating
the hosted zone) and bucket work (creating the bucket), contradicting the
claim that it returns before any zone/bucket/record resource work. -/
theorem c2_counterexample :
    (Reconcile envHappy (.ok pdBase) 5).calls.head? = some Call.update ∧
    Call.createHostedZone "example.com" "parkeddomain-operator-pd1-5"
      ∈ (Reconcile envHappy (.ok pdBase) 5).calls ∧
    Call.createBucket "example.com" (some "eu-central-1")
      ∈ (Reconcile envHappy (.ok pdBase) 5).calls := by decide

/-- A ParkedDomain whose status records a hosted zone. -/
def pdWithZone : ParkedDomain :=
  { pdBase with status :=
      { status := "Provisioned", zoneID := "Z3GONE", nameServers := ["ns-1.awsdns.com"] } }

/-- A Route 53 environment in which the hosted zone is already gone: every
zone-scoped call reports NoSuchHostedZone. -/
def r53EnvZoneGone : R53Env :=
  { r53EnvHappy with
    listRecordSetsPages := fun _ => [.error .noSuchHostedZone]
    changeRecordSets := fun _ _ => .error .noSuchHostedZone
    deleteHostedZone := fun _ => .error .noSuchHostedZone }

/-- C3 counterexample: with a non-empty zoneID whose zone no longer exists,
the record-listing step fails with NoSuchHostedZone and `cleanupRoute53Zone`
returns that as an error — the claim that a zone-not-found outcome on the
listing step is treated as success is false on the code. -/
theorem c3_counterexample :
    (cleanupRoute53Zone r53EnvZoneGone pdWithZone).1 =
      .error (.wrap "failed to list records in Hosted Zone" .noSuchHostedZone) := rfl

/-- C4: when the provider already holds a hosted zone named exactly
domainName + "." — i.e. the ListHostedZonesByName response (which AWS orders
starting at the queried name) begins with that zone — `reconcileRoute53Zone`
adopts it: it returns the zone's id with the "/hostedzone/" path stripped
and the nameservers obtained by the read-only GetHostedZone follow-up, and
its whole trace consists of the two read-only calls, so zero mutating remote
calls are performed. -/
theorem c4_adopt_existing_zone (env : R53Env) (pd : ParkedDomain) (now : Nat)
    (z : HostedZone) (zs : List HostedZone) (ns : List String)
    (hlist : env.listHostedZonesByName pd.spec.domainName = .ok (z :: zs))
    (hname : z.name = pd.spec.domainName ++ ".")
    (hget : env.getHostedZone z.id = .ok ns) :
    reconcileRoute53Zone env pd now =
      (.ok (goReplaceFirst z.id "/hostedzone/" "", ns),
       [.listHostedZonesByName pd.spec.domainName, .getHostedZone z.id]) ∧
    (reconcileRoute53Zone env pd now).2.all (fun c => !c.isMutating) = true := by
  have h1 : reconcileRoute53Zone env pd now =
      (.ok (goReplaceFirst z.id "/hostedzone/" "", ns),
       [.listHostedZonesByName pd.spec.domainName, .getHostedZone z.id]) := by
    simp [reconcileRoute53Zone, hlist, hname, hget]
  refine ⟨h1, ?_⟩
  rw [h1]
  rfl

/-- A Route 53 environment where a zone named "example.com." already
exists. -/
def r53EnvExisting : R53Env :=
  { r53EnvHappy with
    listHostedZonesByName := fun _ =>
      .ok [{ id := "/hostedzone/Z0ADOPT", name := "example.com." }]
    getHostedZone := fun _ => .ok ["ns-10.awsdns.org"] }

/-- Concrete adoption run: the pre-existing zone is returned with its path
stripped to the bare id and only the two read-only calls are made. -/
theorem c4_adopt_existing_zone_witness :
    (reconcileRoute53Zone r53EnvExisting pdBase 3 =
      (.ok (goReplaceFirst "/hostedzone/Z0ADOPT" "/hostedzone/" "", ["ns-10.awsdns.org"]),
       [.listHostedZonesByName "example.com", .getHostedZone "/hostedzone/Z0ADOPT"]) ∧
     (reconcileRoute53Zone r53EnvExisting pdBase 3).2.all (fun c => !c.isMutating) = true) ∧
    goReplaceFirst "/hostedzone/Z0ADOPT" "/hostedzone/" "" = "Z0ADOPT" :=
  ⟨c4_adopt_existing_zone r53EnvExisting pdBase 3
      { id := "/hostedzone/Z0ADOPT", name := "example.com." } [] ["ns-10.awsdns.org"]
      rfl rfl rfl,
   by decide⟩

/-- C7: the record driver resolves the alias hosted-zone id from the fixed
region table using the effective region (eu-central-1 when unspecified); an
absent region yields the Configuration error with no remote call at all,
while a present region issues exactly one change call: an UPSERT of the apex
A alias record whose target is the given bucket website endpoint and whose
alias hosted-zone id is the table entry; eu-central-1 maps to
Z21DNDUVLTQW6Q. -/
theorem c7_upsert_alias_record (env : R53Env) (pd : ParkedDomain)
    (zoneID s3Endpoint : String) :
    (getS3WebsiteHostedZoneID (effectiveRegion pd) = "" →
      reconcileRoute53ARecord env pd zoneID s3Endpoint =
        (.error (.msg ("unsupported S3 website region for alias record: "
            ++ effectiveRegion pd)), [])) ∧
    (getS3WebsiteHostedZoneID (effectiveRegion pd) ≠ "" →
      (reconcileRoute53ARecord env pd zoneID s3Endpoint).2 =
        [.changeRecordSets zoneID
          { comment := some "Managed by ParkedDomain Operator"
            changes := [{ action := .upsert
                          resourceRecordSet :=
                            { name := pd.spec.domainName
                              type := "A"
                              aliasTarget := some
                                { hostedZoneId := getS3WebsiteHostedZoneID (effectiveRegion pd)
                                  dnsName := s3Endpoint
                                  evaluateTargetHealth := false } } }] }]) ∧
    getS3WebsiteHostedZoneID "eu-central-1" = "Z21DNDUVLTQW6Q" := by
  refine ⟨?_, ?_, rfl⟩
  · intro h
    simp [reconcileRoute53ARecord, h]
  · intro h
    simp only [reconcileRoute53ARecord]
    rw [if_neg h]
    split <;> rfl

/-- A ParkedDomain whose spec region is not in the alias table. -/
def pdRegionUnsupported : ParkedDomain :=
  { pdBase with spec := { pdBase.spec with region := "ap-south-1" } }

/-- Concrete record-driver runs: the unsupported region returns the
Configuration error with an empty trace, and the defaulted region
eu-central-1 issues the single upsert with alias zone Z21DNDUVLTQW6Q. -/
theorem c7_upsert_alias_record_witness :
    reconcileRoute53ARecord r53EnvHappy pdRegionUnsupported "Z1" "ep" =
      (.error (.msg ("unsupported S3 website region for alias record: "
          ++ effectiveRegion pdRegionUnsupported)), []) ∧
    (reconcileRoute53ARecord r53EnvHappy pdBase "Z9NEW"
        "example.com.s3-website.eu-central-1.amazonaws.com").2 =
      [.changeRecordSets "Z9NEW"
        { comment := some "Managed by ParkedDomain Operator"
          changes := [{ action := .upsert
                        resourceRecordSet :=
                          { name := "example.com"
                            type := "A"
                            aliasTarget := some
                              { hostedZoneId := "Z21DNDUVLTQW6Q"
                                dnsName := "example.com.s3-website.eu-central-1.amazonaws.com"
                                evaluateTargetHealth := false } } }] }] :=
  ⟨(c7_upsert_alias_record r53EnvHappy pdRegionUnsupported "Z1" "ep").1 rfl,
   (c7_upsert_alias_record r53EnvHappy pdBase "Z9NEW"
      "example.com.s3-website.eu-central-1.amazonaws.com").2.1 (by decide)⟩

/-- C9: when the bucket already exists (HeadBucket succeeds), the bucket
driver skips the create call and re-executes every remaining step: the trace
is exactly head-check, template fetch, index upload, website configuration
and policy application — no CreateBucket — and the uploaded index body is
the deterministic substitution of the domain name into the template.  If the
policy step then succeeds the driver returns the website endpoint, so a
second call with identical inputs after a run that failed at the policy step
completes the policy without re-creating the bucket or uploading different
content. -/
theorem c9_existing_bucket_resume (s3env : S3Env) (kube : KubeEnv) (osEnv : OsEnv)
    (pd : ParkedDomain) (data : List (String × String)) (tpl : String)
    (hclient : s3env.getClient (effectiveRegion pd) = .ok ())
    (hhead : s3env.headBucket pd.spec.domainName = .ok ())
    (hcm : osEnv.templateConfigMapName ≠ "")
    (hget : kube.getConfigMap osEnv.templateConfigMapName
        (if osEnv.templateConfigMapNamespace = "" then pd.nsName
         else osEnv.templateConfigMapNamespace) = .ok data)
    (htpl : data.lookup (if pd.spec.templateName = "" then "default.html"
        else pd.spec.templateName) = some tpl)
    (hput : s3env.putObject pd.spec.domainName "index.html"
        (goReplaceAll tpl domainNameToken pd.spec.domainName) "text/html" = .ok ())
    (hweb : s3env.putBucketWebsite pd.spec.domainName "index.html" = .ok ()) :
    (reconcileS3Bucket s3env kube osEnv pd).2 =
      [.headBucket pd.spec.domainName,
       .getConfigMap osEnv.templateConfigMapName
         (if osEnv.templateConfigMapNamespace = "" then pd.nsName
          else osEnv.templateConfigMapNamespace),
       .putObject pd.spec.domainName "index.html"
         (goReplaceAll tpl domainNameToken pd.spec.domainName) "text/html",
       .putBucketWebsite pd.spec.domainName "index.html",
       .putBucketPolicy pd.spec.domainName (policyFor pd.spec.domainName)] ∧
    (s3env.putBucketPolicy pd.spec.domainName (policyFor pd.spec.domainName) = .ok () →
      (reconcileS3Bucket s3env kube osEnv pd).1 =
        .ok (pd.spec.domainName ++ ".s3-website." ++ effectiveRegion pd ++ ".amazonaws.com")) := by
  have hmain : reconcileS3Bucket s3env kube osEnv pd =
      s3BucketContentSteps s3env kube osEnv pd pd.spec.domainName (effectiveRegion pd)
        [.headBucket pd.spec.domainName] := by
    simp [reconcileS3Bucket, hclient, hhead]
  constructor
  · rw [hmain]
    simp only [s3BucketContentSteps, if_neg hcm, hget, htpl, hput, hweb]
    split <;> rfl
  · intro hpol
    rw [hmain]
    simp only [s3BucketContentSteps, if_neg hcm, hget, htpl, hput, hweb, hpol]

/-- The happy S3 environment, but with the bucket already existing. -/
def s3EnvExisting : S3Env := { s3EnvHappy with headBucket := fun _ => .ok () }

/-- Concrete resumed run over an existing bucket: no CreateBucket call, the
uploaded body is the template with the domain substituted, the policy step
runs, and the endpoint is returned. -/
theorem c9_existing_bucket_resume_witness :
    (reconcileS3Bucket s3EnvExisting kubeEnvHappy osEnvHappy pdBase).2 =
      [.headBucket "example.com",
       .getConfigMap "templates" "default",
       .putObject "example.com" "index.html" "<h1>example.com</h1>" "text/html",
       .putBucketWebsite "example.com" "index.html",
       .putBucketPolicy "example.com" (policyFor "example.com")] ∧
    (reconcileS3Bucket s3EnvExisting kubeEnvHappy osEnvHappy pdBase).1 =
      .ok "example.com.s3-website.eu-central-1.amazonaws.com" :=
  ⟨(c9_existing_bucket_resume s3EnvExisting kubeEnvHappy osEnvHappy pdBase
      [("default.html", "<h1>\x7b\x7bDOMAIN_NAME\x7d\x7d</h1>")]
      "<h1>\x7b\x7bDOMAIN_NAME\x7d\x7d</h1>"
      rfl rfl (by decide) rfl (by decide) rfl rfl).1,
   (c9_existing_bucket_resume s3EnvExisting kubeEnvHappy osEnvHappy pdBase
      [("default.html", "<h1>\x7b\x7bDOMAIN_NAME\x7d\x7d</h1>")]
      "<h1>\x7b\x7bDOMAIN_NAME\x7d\x7d</h1>"
      rfl rfl (by decide) rfl (by decide) rfl rfl).2 rfl⟩

/-- The trace of the bucket-emptying loop over successfully listed pages:
one list call per page, plus a batch DeleteObjects call for each non-empty
page. -/
def s3DeleteTrace (bucket : String) : List (List String) → List Call
  | [] => []
  | ks :: rest =>
    .listObjectsPage bucket ::
      ((if ks.isEmpty then [] else [Call.deleteObjects bucket ks]) ++ s3DeleteTrace bucket rest)

/-- When every page lists fine and every batch deletion succeeds, the
emptying loop deletes each non-empty page and proceeds to bucket
deletion. -/
theorem s3CleanupLoop_all_ok (env : S3Env) (bucket : String)
    (hdel : ∀ ks, env.deleteObjects bucket ks = .ok ()) :
    ∀ good : List (List String),
      s3CleanupLoop env bucket (good.map Except.ok) = (.ok true, s3DeleteTrace bucket good) := by
  intro good
  induction good with
  | nil => rfl
  | cons ks gtail ih =>
    cases hks : ks.isEmpty <;>
      simp [s3CleanupLoop, s3DeleteTrace, hks, hdel ks, ih]

/-- When a NoSuchBucket error shows up while listing (after any number of
fine pages), the emptying loop ends the whole cleanup successfully. -/
theorem s3CleanupLoop_noSuchBucket (env : S3Env) (bucket : String)
    (hdel : ∀ ks, env.deleteObjects bucket ks = .ok ()) :
    ∀ (good : List (List String)) (rest : List (Except RErr (List String))),
      s3CleanupLoop env bucket (good.map Except.ok ++ .error .noSuchBucket :: rest) =
        (.ok false, s3DeleteTrace bucket good ++ [.listObjectsPage bucket]) := by
  intro good
  induction good with
  | nil => intro rest; rfl
  | cons ks gtail ih =>
    intro rest
    cases hks : ks.isEmpty <;>
      simp [s3CleanupLoop, s3DeleteTrace, hks, hdel ks, ih rest]

/-- C6: `cleanupS3Bucket` paginates the bucket, batch-deletes each non-empty
page of objects and then deletes the bucket; a NoSuchBucket outcome while
listing ends cleanup successfully (without attempting the bucket deletion),
and a NoSuchBucket outcome of the bucket deletion itself is also success. -/
theorem c6_teardown_bucket (env : S3Env) (pd : ParkedDomain) (good : List (List String))
    (hclient : env.getClient (effectiveRegion pd) = .ok ())
    (hdel : ∀ ks, env.deleteObjects pd.spec.domainName ks = .ok ()) :
    (∀ rest, env.listObjectsPages pd.spec.domainName =
        good.map Except.ok ++ .error RErr.noSuchBucket :: rest →
      cleanupS3Bucket env pd =
        (.ok (), s3DeleteTrace pd.spec.domainName good
          ++ [.listObjectsPage pd.spec.domainName])) ∧
    (env.listObjectsPages pd.spec.domainName = good.map Except.ok →
      env.deleteBucket pd.spec.domainName = .error .noSuchBucket →
      cleanupS3Bucket env pd =
        (.ok (), s3DeleteTrace pd.spec.domainName good
          ++ [.deleteBucket pd.spec.domainName])) ∧
    (env.listObjectsPages pd.spec.domainName = good.map Except.ok →
      env.deleteBucket pd.spec.domainName = .ok () →
      cleanupS3Bucket env pd =
        (.ok (), s3DeleteTrace pd.spec.domainName good
          ++ [.deleteBucket pd.spec.domainName])) := by
  refine ⟨?_, ?_, ?_⟩
  · intro rest hpages
    simp [cleanupS3Bucket, hclient, hpages, s3CleanupLoop_noSuchBucket env _ hdel good rest]
  · intro hpages hbucket
    simp [cleanupS3Bucket, hclient, hpages, s3CleanupLoop_all_ok env _ hdel good, hbucket]
  · intro hpages hbucket
    simp [cleanupS3Bucket, hclient, hpages, s3CleanupLoop_all_ok env _ hdel good, hbucket]

/-- An S3 environment whose bucket is already gone: listing and deletion
both report NoSuchBucket. -/
def s3EnvBucketGone : S3Env :=
  { s3EnvHappy with
    listObjectsPages := fun _ => [.error .noSuchBucket]
    deleteBucket := fun _ => .error .noSuchBucket }

/-- Concrete teardown runs: with the bucket gone, the first list call hits
NoSuchBucket and cleanup succeeds with no deletion attempts; with one page
of one object, the object is batch-deleted and the bucket removed. -/
theorem c6_teardown_bucket_witness :
    cleanupS3Bucket s3EnvBucketGone pdBase = (.ok (), [.listObjectsPage "example.com"]) ∧
    cleanupS3Bucket s3EnvHappy pdBase =
      (.ok (), [.listObjectsPage "example.com",
                .deleteObjects "example.com" ["index.html"],
                .deleteBucket "example.com"]) :=
  ⟨(c6_teardown_bucket s3EnvBucketGone pdBase [] rfl (fun _ => rfl)).1 [] rfl,
   (c6_teardown_bucket s3EnvHappy pdBase [["index.html"]] rfl (fun _ => rfl)).2.2 rfl rfl⟩

/-- A successful full page collection fetches every page. -/
theorem collectPages_ok_length {α : Type} :
    ∀ (pages : List (Except RErr (List α))) (xs : List α),
      collectPages pages = .ok xs → pagesFetched pages = pages.length := by
  intro pages
  induction pages with
  | nil => intro xs h; rfl
  | cons p rest ih =>
    intro xs h
    cases p with
    | error e => simp [collectPages] at h
    | ok ys =>
      cases hr : collectPages rest with
      | error e => rw [collectPages, hr] at h; simp at h
      | ok more =>
        have hlen := ih more hr
        simp only [pagesFetched, hlen, List.length_cons]
        omega

/-- C3 (amended): `cleanupRoute53Zone` with an empty zoneID succeeds without
any remote call.  With a non-empty zoneID it enumerates every record page,
batch-deletes exactly the records whose type is neither NS nor SOA (skipping
the batch call when there are none) and then deletes the zone, treating a
NoSuchHostedZone outcome of the zone deletion as success.  A zone-not-found
failure while listing the records, or while batch-deleting them, however, is
returned as an error, not treated as success. -/
theorem c3_teardown_zone (env : R53Env) (pd : ParkedDomain) :
    (pd.status.zoneID = "" → cleanupRoute53Zone env pd = (.ok (), [])) ∧
    (∀ recs, pd.status.zoneID ≠ "" →
      collectPages (env.listRecordSetsPages pd.status.zoneID) = .ok recs →
      (∀ b, env.changeRecordSets pd.status.zoneID b = .ok ()) →
      (env.deleteHostedZone pd.status.zoneID = .ok () ∨
       env.deleteHostedZone pd.status.zoneID = .error .noSuchHostedZone) →
      cleanupRoute53Zone env pd =
        (.ok (),
         List.replicate (env.listRecordSetsPages pd.status.zoneID).length
           (Call.listRecordSets pd.status.zoneID)
         ++ (if (recs.filter (fun r => r.type != "NS" && r.type != "SOA")).isEmpty then []
             else [Call.changeRecordSets pd.status.zoneID
                    { comment := none
                      changes := (recs.filter (fun r => r.type != "NS" && r.type != "SOA")).map
                        (fun r => { action := ChangeAction.delete, resourceRecordSet := r }) }])
         ++ [Call.deleteHostedZone pd.status.zoneID])) ∧
    (∀ e, pd.status.zoneID ≠ "" →
      collectPages (env.listRecordSetsPages pd.status.zoneID) = .error e →
      (cleanupRoute53Zone env pd).1 =
        .error (.wrap "failed to list records in Hosted Zone" e)) ∧
    (∀ recs e, pd.status.zoneID ≠ "" →
      collectPages (env.listRecordSetsPages pd.status.zoneID) = .ok recs →
      recs.filter (fun r => r.type != "NS" && r.type != "SOA") ≠ [] →
      env.changeRecordSets pd.status.zoneID
        { comment := none
          changes := (recs.filter (fun r => r.type != "NS" && r.type != "SOA")).map
            (fun r => { action := ChangeAction.delete, resourceRecordSet := r }) } = .error e →
      (cleanupRoute53Zone env pd).1 =
        .error (.wrap "failed to delete records from Hosted Zone" e)) := by
  refine ⟨?_, ?_, ?_, ?_⟩
  · intro h
    simp [cleanupRoute53Zone, h]
  · intro recs hz hcoll hchg hdel
    have hlen := collectPages_ok_length _ _ hcoll
    cases hfil : recs.filter (fun r => r.type != "NS" && r.type != "SOA") with
    | nil =>
      rcases hdel with h | h <;>
        simp [cleanupRoute53Zone, hz, hcoll, hlen, hfil, hchg, h]
    | cons r rs =>
      rcases hdel with h | h <;>
        simp [cleanupRoute53Zone, hz, hcoll, hlen, hfil, hchg, h]
  · intro e hz hcoll
    simp [cleanupRoute53Zone, hz, hcoll]
  · intro recs e hz hcoll hne hchg
    have hlen := collectPages_ok_length _ _ hcoll
    cases hfil : recs.filter (fun r => r.type != "NS" && r.type != "SOA") with
    | nil => exact absurd hfil hne
    | cons r rs =>
      rw [hfil] at hchg
      simp only [List.map_cons] at hchg
      simp [cleanupRoute53Zone, hz, hcoll, hlen, hfil, hchg]

/-- A Route 53 environment holding one page with the apex NS/SOA records and
one managed A record, whose zone deletion reports NoSuchHostedZone. -/
def r53EnvTeardown : R53Env :=
  { r53EnvHappy with
    listRecordSetsPages := fun _ =>
      [.ok [{ name := "example.com.", type := "NS", aliasTarget := none },
            { name := "example.com.", type := "SOA", aliasTarget := none },
            { name := "example.com.", type := "A",
              aliasTarget := some { hostedZoneId := "Z21DNDUVLTQW6Q"
                                    dnsName := "example.com.s3-website.eu-central-1.amazonaws.com"
                                    evaluateTargetHealth := false } }]]
    deleteHostedZone := fun _ => .error .noSuchHostedZone }

/-- The same zone contents, but with the record batch deletion itself
failing with NoSuchHostedZone. -/
def r53EnvChangeFail : R53Env :=
  { r53EnvTeardown with changeRecordSets := fun _ _ => .error .noSuchHostedZone }

/-- Concrete teardown runs: the empty zoneID is a no-op success; a zone with
NS, SOA and one A record batch-deletes only the A record before the zone
deletion, whose NoSuchHostedZone outcome still yields success; and a
NoSuchHostedZone failure of the batch deletion itself is returned as an
error. -/
theorem c3_teardown_zone_witness :
    cleanupRoute53Zone r53EnvHappy pdBase = (.ok (), []) ∧
    cleanupRoute53Zone r53EnvTeardown pdWithZone =
      (.ok (),
       [Call.listRecordSets "Z3GONE",
        Call.changeRecordSets "Z3GONE"
          { comment := none
            changes := [{ action := .delete
                          resourceRecordSet :=
                            { name := "example.com.", type := "A",
                              aliasTarget := some
                                { hostedZoneId := "Z21DNDUVLTQW6Q"
                                  dnsName := "example.com.s3-website.eu-central-1.amazonaws.com"
                                  evaluateTargetHealth := false } } }] },
        Call.deleteHostedZone "Z3GONE"]) ∧
    (cleanupRoute53Zone r53EnvChangeFail pdWithZone).1 =
      .error (.wrap "failed to delete records from Hosted Zone" .noSuchHostedZone) :=
  ⟨(c3_teardown_zone r53EnvHappy pdBase).1 rfl,
   (c3_teardown_zone r53EnvTeardown pdWithZone).2.1
      [{ name := "example.com.", type := "NS", aliasTarget := none },
       { name := "example.com.", type := "SOA", aliasTarget := none },
       { name := "example.com.", type := "A",
         aliasTarget := some { hostedZoneId := "Z21DNDUVLTQW6Q"
                               dnsName := "example.com.s3-website.eu-central-1.amazonaws.com"
                               evaluateTargetHealth := false } }]
      (by decide) rfl (fun _ => rfl) (Or.inr rfl),
   (c3_teardown_zone r53EnvChangeFail pdWithZone).2.2.2
      [{ name := "example.com.", type := "NS", aliasTarget := none },
       { name := "example.com.", type := "SOA", aliasTarget := none },
       { name := "example.com.", type := "A",
         aliasTarget := some { hostedZoneId := "Z21DNDUVLTQW6Q"
                               dnsName := "example.com.s3-website.eu-central-1.amazonaws.com"
                               evaluateTargetHealth := false } }]
      RErr.noSuchHostedZone (by decide) rfl (by decide) rfl⟩

/-- The zone stage always issues the ListHostedZonesByName call first. -/
theorem reconcileRoute53Zone_first_call (env : R53Env) (pd : ParkedDomain) (now : Nat) :
    ∃ rest, (reconcileRoute53Zone env pd now).2 =
      Call.listHostedZonesByName pd.spec.domainName :: rest := by
  simp only [reconcileRoute53Zone, createNewZone]
  repeat' split
  all_goals exact ⟨_, rfl⟩

/-- On a non-deleting object already holding the finalizer, `Reconcile` goes
straight to the resource stages. -/
theorem Reconcile_with_finalizer (env : ClusterEnv) (pd : ParkedDomain) (now : Nat)
    (hdel : pd.deletionTimestamp = none)
    (hfin : pd.finalizers.contains finalizerName = true) :
    Reconcile env (.ok pd) now = createPath env pd now [] := by
  have hmem : finalizerName ∈ pd.finalizers := by simpa using hfin
  simp [Reconcile, hdel, hmem]

/-- Resource-stage characterization: a failing zone stage. -/
theorem createPath_zoneError (env : ClusterEnv) (pd : ParkedDomain) (now : Nat)
    (pre : List Call) (e : GoErr)
    (h : (reconcileRoute53Zone env.r53 pd now).1 = .error e) :
    createPath env pd now pre =
      { res := .error e
        pd := some { pd with status := { pd.status with status := "Error: Route53 Zone" } }
        calls := pre ++ (reconcileRoute53Zone env.r53 pd now).2 ++ [.statusUpdate] } := by
  simp [createPath, h]

/-- Resource-stage characterization: a failing bucket stage. -/
theorem createPath_bucketError (env : ClusterEnv) (pd : ParkedDomain) (now : Nat)
    (pre : List Call) (z : String × List String) (e : GoErr)
    (hz : (reconcileRoute53Zone env.r53 pd now).1 = .ok z)
    (hs : (reconcileS3Bucket env.s3 env.kube env.osEnv pd).1 = .error e) :
    createPath env pd now pre =
      { res := .error e
        pd := some { pd with status := { pd.status with status := "Error: S3 Bucket" } }
        calls := pre ++ (reconcileRoute53Zone env.r53 pd now).2
          ++ (reconcileS3Bucket env.s3 env.kube env.osEnv pd).2 ++ [.statusUpdate] } := by
  simp [createPath, hz, hs]

/-- Resource-stage characterization: a failing record stage. -/
theorem createPath_recordError (env : ClusterEnv) (pd : ParkedDomain) (now : Nat)
    (pre : List Call) (z : String × List String) (ep : String) (e : GoErr)
    (hz : (reconcileRoute53Zone env.r53 pd now).1 = .ok z)
    (hs : (reconcileS3Bucket env.s3 env.kube env.osEnv pd).1 = .ok ep)
    (hr : (reconcileRoute53ARecord env.r53 pd z.1 ep).1 = .error e) :
    createPath env pd now pre =
      { res := .error e
        pd := some { pd with status := { pd.status with status := "Error: Route53 A Record" } }
        calls := pre ++ (reconcileRoute53Zone env.r53 pd now).2
          ++ (reconcileS3Bucket env.s3 env.kube env.osEnv pd).2
          ++ (reconcileRoute53ARecord env.r53 pd z.1 ep).2 ++ [.statusUpdate] } := by
  simp [createPath, hz, hs, hr]

/-- Resource-stage characterization: all three stages succeed. -/
theorem createPath_success (env : ClusterEnv) (pd : ParkedDomain) (now : Nat)
    (pre : List Call) (z : String × List String) (ep : String)
    (hz : (reconcileRoute53Zone env.r53 pd now).1 = .ok z)
    (hs : (reconcileS3Bucket env.s3 env.kube env.osEnv pd).1 = .ok ep)
    (hr : (reconcileRoute53ARecord env.r53 pd z.1 ep).1 = .ok ()) :
    (createPath env pd now pre).pd =
      some { pd with status :=
        { status := "Provisioned", zoneID := z.1, nameServers := z.2 } } ∧
    (createPath env pd now pre).calls =
      pre ++ (reconcileRoute53Zone env.r53 pd now).2
        ++ (reconcileS3Bucket env.s3 env.kube env.osEnv pd).2
        ++ (reconcileRoute53ARecord env.r53 pd z.1 ep).2 ++ [.statusUpdate] ∧
    (env.kube.statusUpdate = .ok () → (createPath env pd now pre).res = .ok ()) := by
  rcases hsu : env.kube.statusUpdate with e | u <;> simp [createPath, hz, hs, hr, hsu]

/-- C2 (amended): on a non-deleting intent without the finalizer token,
`Reconcile` adds the token and persists the update, and — when the persist
succeeds — proceeds in that same invocation to the zone/bucket/record
resource stages: the trace continues after the update call with the zone
stage's first remote call. -/
theorem c2_finalizer_added_then_work (env : ClusterEnv) (pd : ParkedDomain) (now : Nat)
    (hdel : pd.deletionTimestamp = none)
    (hfin : pd.finalizers.contains finalizerName = false)
    (hupd : env.kube.update = .ok ()) :
    ({ pd with finalizers := pd.finalizers ++ [finalizerName] } : ParkedDomain).finalizers.contains
        finalizerName = true ∧
    Reconcile env (.ok pd) now =
      createPath env { pd with finalizers := pd.finalizers ++ [finalizerName] } now [.update] ∧
    (Reconcile env (.ok pd) now).calls.take 2 =
      [Call.update, Call.listHostedZonesByName pd.spec.domainName] := by
  have hmem : finalizerName ∉ pd.finalizers := by simpa using hfin
  have hred : Reconcile env (.ok pd) now =
      createPath env { pd with finalizers := pd.finalizers ++ [finalizerName] } now [.update] := by
    simp [Reconcile, hdel, hmem, hupd]
  refine ⟨?_, hred, ?_⟩
  · simp
  · obtain ⟨r0, hr0⟩ :=
      reconcileRoute53Zone_first_call env.r53
        { pd with finalizers := pd.finalizers ++ [finalizerName] } now
    rw [hred]
    simp only [createPath]
    repeat' split
    all_goals simp_all

/-- Concrete run of the previous theorem: starting from an intent without
the token, the finalizer is persisted first and the zone listing follows in
the same invocation. -/
theorem c2_finalizer_added_then_work_witness :
    ({ pdBase with finalizers := pdBase.finalizers ++ [finalizerName] } :
        ParkedDomain).finalizers.contains finalizerName = true ∧
    Reconcile envHappy (.ok pdBase) 5 =
      createPath envHappy { pdBase with finalizers := pdBase.finalizers ++ [finalizerName] }
        5 [.update] ∧
    (Reconcile envHappy (.ok pdBase) 5).calls.take 2 =
      [Call.update, Call.listHostedZonesByName "example.com"] :=
  c2_finalizer_added_then_work envHappy pdBase 5 rfl rfl rfl

/-- C5: on a deleting intent holding the finalizer token, bucket teardown
runs first (the trace begins with its calls), and zone teardown only after
it; if bucket teardown fails, its error is propagated and the object — token
included — is untouched; if bucket teardown succeeds and zone teardown
fails, that error is propagated, again leaving the token in place; the token
is removed only when both teardowns reported success, in which case the
trace is bucket calls, zone calls, then the persisting update. -/
theorem c5_teardown_order_finalizer (env : ClusterEnv) (pd : ParkedDomain) (ts now : Nat)
    (hdel : pd.deletionTimestamp = some ts)
    (hfin : pd.finalizers.contains finalizerName = true) :
    (∃ tail, (Reconcile env (.ok pd) now).calls = (cleanupS3Bucket env.s3 pd).2 ++ tail) ∧
    (∀ e, (cleanupS3Bucket env.s3 pd).1 = .error e →
      (Reconcile env (.ok pd) now).res = .error e ∧
      (Reconcile env (.ok pd) now).pd = some pd ∧
      (Reconcile env (.ok pd) now).calls = (cleanupS3Bucket env.s3 pd).2) ∧
    (∀ e, (cleanupS3Bucket env.s3 pd).1 = .ok () →
      (cleanupRoute53Zone env.r53 pd).1 = .error e →
      (Reconcile env (.ok pd) now).res = .error e ∧
      (Reconcile env (.ok pd) now).pd = some pd ∧
      (Reconcile env (.ok pd) now).calls =
        (cleanupS3Bucket env.s3 pd).2 ++ (cleanupRoute53Zone env.r53 pd).2) ∧
    (∀ pd1, (Reconcile env (.ok pd) now).pd = some pd1 →
      pd1.finalizers.contains finalizerName = false →
      (cleanupS3Bucket env.s3 pd).1 = .ok () ∧ (cleanupRoute53Zone env.r53 pd).1 = .ok ()) ∧
    ((cleanupS3Bucket env.s3 pd).1 = .ok () → (cleanupRoute53Zone env.r53 pd).1 = .ok () →
      (Reconcile env (.ok pd) now).calls =
        (cleanupS3Bucket env.s3 pd).2 ++ (cleanupRoute53Zone env.r53 pd).2 ++ [Call.update] ∧
      (Reconcile env (.ok pd) now).pd =
        some { pd with finalizers := pd.finalizers.filter (fun f => f != finalizerName) }) := by
  have hmem : finalizerName ∈ pd.finalizers := by simpa using hfin
  rcases hs3 : (cleanupS3Bucket env.s3 pd).1 with e3 | u3
  · have hred : Reconcile env (.ok pd) now =
        { res := .error e3, pd := some pd, calls := (cleanupS3Bucket env.s3 pd).2 } := by
      simp [Reconcile, hdel, hmem, hs3]
    refine ⟨⟨[], by simp [hred]⟩, ?_, ?_, ?_, ?_⟩
    · intro e he
      injection he with h
      subst h
      simp [hred]
    · intro e hok _
      simp at hok
    · intro pd1 hpd1 hcont
      simp [hred] at hpd1
      subst hpd1
      exact absurd hmem (by simpa using hcont)
    · intro hok _
      simp at hok
  · rcases hzn : (cleanupRoute53Zone env.r53 pd).1 with ez | uz
    · have hred : Reconcile env (.ok pd) now =
          { res := .error ez, pd := some pd,
            calls := (cleanupS3Bucket env.s3 pd).2 ++ (cleanupRoute53Zone env.r53 pd).2 } := by
        simp [Reconcile, hdel, hmem, hs3, hzn]
      refine ⟨⟨_, by rw [hred]⟩, ?_, ?_, ?_, ?_⟩
      · intro e he
        simp at he
      · intro e _ he
        injection he with h
        subst h
        simp [hred]
      · intro pd1 hpd1 hcont
        simp [hred] at hpd1
        subst hpd1
        exact absurd hmem (by simpa using hcont)
      · intro _ hok
        simp at hok
    · have hredpd : (Reconcile env (.ok pd) now).pd =
          some { pd with finalizers := pd.finalizers.filter (fun f => f != finalizerName) } := by
        rcases hu : env.kube.update with eu | uu <;>
          simp [Reconcile, hdel, hmem, hs3, hzn, hu]
      have hredcalls : (Reconcile env (.ok pd) now).calls =
          (cleanupS3Bucket env.s3 pd).2 ++ (cleanupRoute53Zone env.r53 pd).2
            ++ [Call.update] := by
        rcases hu : env.kube.update with eu | uu <;>
          simp [Reconcile, hdel, hmem, hs3, hzn, hu]
      refine ⟨⟨_, by rw [hredcalls]; exact List.append_assoc _ _ _⟩, ?_, ?_, ?_, ?_⟩
      · intro e he
        simp at he
      · intro e _ he
        simp at he
      · intro pd1 _ _
        exact ⟨rfl, rfl⟩
      · intro _ _
        exact ⟨hredcalls, hredpd⟩

/-- The deleting intent: zone recorded in status, finalizer held, deletion
marker set. -/
def pdDeleting : ParkedDomain :=
  { pdWithZone with deletionTimestamp := some 9, finalizers := [finalizerName] }

/-- Concrete full deletion run: bucket calls, then zone calls, then the
finalizer-removing update, with the token gone from the final object. -/
theorem c5_teardown_order_finalizer_witness :
    (Reconcile envHappy (.ok pdDeleting) 0).calls =
      (cleanupS3Bucket envHappy.s3 pdDeleting).2
        ++ (cleanupRoute53Zone envHappy.r53 pdDeleting).2 ++ [Call.update] ∧
    (Reconcile envHappy (.ok pdDeleting) 0).pd =
      some { pdDeleting with
        finalizers := pdDeleting.finalizers.filter (fun f => f != finalizerName) } :=
  (c5_teardown_order_finalizer envHappy pdDeleting 9 0 rfl (by decide)).2.2.2.2 rfl rfl

/-- C8: whenever the zone, bucket or record stage of `Reconcile` fails, the
object's status string is set to the Error value naming that stage and a
status update is the last call issued before the stage error is returned;
when all three stages succeed the status becomes Provisioned together with
the zone id and nameservers. -/
theorem c8_stage_error_status (env : ClusterEnv) (pd : ParkedDomain) (now : Nat)
    (hdel : pd.deletionTimestamp = none)
    (hfin : pd.finalizers.contains finalizerName = true) :
    (∀ e, (reconcileRoute53Zone env.r53 pd now).1 = .error e →
      (Reconcile env (.ok pd) now).res = .error e ∧
      (Reconcile env (.ok pd) now).pd =
        some { pd with status := { pd.status with status := "Error: Route53 Zone" } } ∧
      (Reconcile env (.ok pd) now).calls.getLast? = some Call.statusUpdate) ∧
    (∀ z e, (reconcileRoute53Zone env.r53 pd now).1 = .ok z →
      (reconcileS3Bucket env.s3 env.kube env.osEnv pd).1 = .error e →
      (Reconcile env (.ok pd) now).res = .error e ∧
      (Reconcile env (.ok pd) now).pd =
        some { pd with status := { pd.status with status := "Error: S3 Bucket" } } ∧
      (Reconcile env (.ok pd) now).calls.getLast? = some Call.statusUpdate) ∧
    (∀ z ep e, (reconcileRoute53Zone env.r53 pd now).1 = .ok z →
      (reconcileS3Bucket env.s3 env.kube env.osEnv pd).1 = .ok ep →
      (reconcileRoute53ARecord env.r53 pd z.1 ep).1 = .error e →
      (Reconcile env (.ok pd) now).res = .error e ∧
      (Reconcile env (.ok pd) now).pd =
        some { pd with status := { pd.status with status := "Error: Route53 A Record" } } ∧
      (Reconcile env (.ok pd) now).calls.getLast? = some Call.statusUpdate) ∧
    (∀ z ep, (reconcileRoute53Zone env.r53 pd now).1 = .ok z →
      (reconcileS3Bucket env.s3 env.kube env.osEnv pd).1 = .ok ep →
      (reconcileRoute53ARecord env.r53 pd z.1 ep).1 = .ok () →
      (Reconcile env (.ok pd) now).pd =
        some { pd with status :=
          { status := "Provisioned", zoneID := z.1, nameServers := z.2 } } ∧
      (Reconcile env (.ok pd) now).calls.getLast? = some Call.statusUpdate) := by
  have hR := Reconcile_with_finalizer env pd now hdel hfin
  refine ⟨?_, ?_, ?_, ?_⟩
  · intro e he
    rw [hR, createPath_zoneError env pd now [] e he]
    exact ⟨rfl, rfl, by simp⟩
  · intro z e hz hs
    rw [hR, createPath_bucketError env pd now [] z e hz hs]
    exact ⟨rfl, rfl, by simp⟩
  · intro z ep e hz hs hr
    rw [hR, createPath_recordError env pd now [] z ep e hz hs hr]
    exact ⟨rfl, rfl, by simp⟩
  · intro z ep hz hs hr
    obtain ⟨hpd, hcalls, _⟩ := createPath_success env pd now [] z ep hz hs hr
    rw [hR]
    exact ⟨hpd, by rw [hcalls]; simp⟩

/-- A Route 53 environment whose zone listing is throttled. -/
def r53EnvListFail : R53Env :=
  { r53EnvHappy with listHostedZonesByName := fun _ => .error (.other "throttled") }

/-- The environment with a failing zone stage. -/
def envZoneFail : ClusterEnv := { envHappy with r53 := r53EnvListFail }

/-- The base intent already holding the finalizer token. -/
def pdFin : ParkedDomain := { pdBase with finalizers := [finalizerName] }

/-- Concrete failing-zone-stage run: the stage error is propagated, the
status is set to the Error value naming the zone stage, and the status
update is the last call. -/
theorem c8_stage_error_status_witness :
    (Reconcile envZoneFail (.ok pdFin) 0).res =
      .error (.wrap "failed to list hosted zones" (.other "throttled")) ∧
    (Reconcile envZoneFail (.ok pdFin) 0).pd =
      some { pdFin with status := { pdFin.status with status := "Error: Route53 Zone" } } ∧
    (Reconcile envZoneFail (.ok pdFin) 0).calls.getLast? = some Call.statusUpdate :=
  (c8_stage_error_status envZoneFail pdFin 0 rfl (by decide)).1
    (.wrap "failed to list hosted zones" (.other "throttled")) rfl

/-- C10: `Reconcile` writes status.zoneID and status.nameServers only on the
full-success path; when the zone, bucket or record stage fails, the final
object differs from the fetched one only in the status string — zoneID and
nameServers in particular are unchanged; on full success they are set to the
zone stage's id and nameservers. -/
theorem c10_status_frame (env : ClusterEnv) (pd : ParkedDomain) (now : Nat)
    (hdel : pd.deletionTimestamp = none)
    (hfin : pd.finalizers.contains finalizerName = true) :
    (∀ e, (reconcileRoute53Zone env.r53 pd now).1 = .error e →
      ∃ pd1, (Reconcile env (.ok pd) now).pd = some pd1 ∧
        pd1.status.zoneID = pd.status.zoneID ∧
        pd1.status.nameServers = pd.status.nameServers ∧
        pd1 = { pd with status := { pd.status with status := pd1.status.status } }) ∧
    (∀ z e, (reconcileRoute53Zone env.r53 pd now).1 = .ok z →
      (reconcileS3Bucket env.s3 env.kube env.osEnv pd).1 = .error e →
      ∃ pd1, (Reconcile env (.ok pd) now).pd = some pd1 ∧
        pd1.status.zoneID = pd.status.zoneID ∧
        pd1.status.nameServers = pd.status.nameServers ∧
        pd1 = { pd with status := { pd.status with status := pd1.status.status } }) ∧
    (∀ z ep e, (reconcileRoute53Zone env.r53 pd now).1 = .ok z →
      (reconcileS3Bucket env.s3 env.kube env.osEnv pd).1 = .ok ep →
      (reconcileRoute53ARecord env.r53 pd z.1 ep).1 = .error e →
      ∃ pd1, (Reconcile env (.ok pd) now).pd = some pd1 ∧
        pd1.status.zoneID = pd.status.zoneID ∧
        pd1.status.nameServers = pd.status.nameServers ∧
        pd1 = { pd with status := { pd.status with status := pd1.status.status } }) ∧
    (∀ z ep, (reconcileRoute53Zone env.r53 pd now).1 = .ok z →
      (reconcileS3Bucket env.s3 env.kube env.osEnv pd).1 = .ok ep →
      (reconcileRoute53ARecord env.r53 pd z.1 ep).1 = .ok () →
      ∃ pd1, (Reconcile env (.ok pd) now).pd = some pd1 ∧
        pd1.status.zoneID = z.1 ∧ pd1.status.nameServers = z.2) := by
  have hR := Reconcile_with_finalizer env pd now hdel hfin
  refine ⟨?_, ?_, ?_, ?_⟩
  · intro e he
    rw [hR, createPath_zoneError env pd now [] e he]
    exact ⟨_, rfl, rfl, rfl, rfl⟩
  · intro z e hz hs
    rw [hR, createPath_bucketError env pd now [] z e hz hs]
    exact ⟨_, rfl, rfl, rfl, rfl⟩
  · intro z ep e hz hs hr
    rw [hR, createPath_recordError env pd now [] z ep e hz hs hr]
    exact ⟨_, rfl, rfl, rfl, rfl⟩
  · intro z ep hz hs hr
    obtain ⟨hpd, _, _⟩ := createPath_success env pd now [] z ep hz hs hr
    rw [hR]
    exact ⟨_, hpd, rfl, rfl⟩

/-- An S3 environment whose policy application is denied, failing the bucket
stage after the zone stage has already created a zone. -/
def s3EnvPolicyFail : S3Env :=
  { s3EnvHappy with putBucketPolicy := fun _ _ => .error (.other "access denied") }

/-- The environment with a failing bucket stage. -/
def envBucketFail : ClusterEnv := { envHappy with s3 := s3EnvPolicyFail }

/-- Concrete frame runs: when the bucket stage fails after the zone stage
created zone Z9NEW, the final status keeps the fetched (empty) zoneID and
nameservers; on the full-success run they are set to Z9NEW and its
nameservers. -/
theorem c10_status_frame_witness :
    (∃ pd1, (Reconcile envBucketFail (.ok pdFin) 5).pd = some pd1 ∧
      pd1.status.zoneID = pdFin.status.zoneID ∧
      pd1.status.nameServers = pdFin.status.nameServers ∧
      pd1 = { pdFin with status := { pdFin.status with status := pd1.status.status } }) ∧
    (∃ pd1, (Reconcile envHappy (.ok pdFin) 5).pd = some pd1 ∧
      pd1.status.zoneID = "Z9NEW" ∧
      pd1.status.nameServers = ["ns-1.awsdns.com", "ns-2.awsdns.com"]) :=
  ⟨(c10_status_frame envBucketFail pdFin 5 rfl (by decide)).2.1
      ("Z9NEW", ["ns-1.awsdns.com", "ns-2.awsdns.com"])
      (.wrap "failed to apply S3 bucket policy" (.other "access denied")) rfl rfl,
   (c10_status_frame envHappy pdFin 5 rfl (by decide)).2.2.2
      ("Z9NEW", ["ns-1.awsdns.com", "ns-2.awsdns.com"])
      "example.com.s3-website.eu-central-1.amazonaws.com" rfl rfl rfl⟩
